import Mathlib

/-!
Shallow embedding of the wushu-backend endorsement workflow.

Data model from `src/app/core/models.py` (the module the routers import);
operations from `src/app/routers/{athlete,institute,tournament}.py`.
UUIDs are modelled as `Nat`, datetimes as `Nat` timestamps.  A FastAPI
`HTTPException(status_code, detail)` is modelled by `HTTPError`; a route
body that can raise returns `Except HTTPError α`.  Every route wraps its
body in `try ... except Exception as e: raise HTTPException(500, prefix + str(e))`,
and FastAPI's `HTTPException` is itself an `Exception`, so a 404 raised
inside the body is caught and re-raised as a 500 — the wrapper functions
below reproduce that.
-/

namespace Wushu

/-- Table model `endorsements` (src/app/core/models.py lines 103-109). -/
structure endorsements where
  endorsement_id : Nat
  tournament_id : Nat
  endorser_id : Nat
  athlete_id : Nat
  review : Bool
  approve : Bool
deriving Repr, DecidableEq

/-- Table model `athlete` (src/app/core/models.py lines 111-118).
Note: this model has NO `matches_played` column. -/
structure athlete where
  athlete_id : Nat
  name : String
  age : Nat
  gender : String
  division : String
  contact : String
  password : String
deriving Repr, DecidableEq

/-- Table model `tournament` (src/app/core/models.py lines 120-132). -/
structure tournament where
  tournament_id : Nat
  division : String
  stage : Nat
  name : String
  winnerscore : Option Int
  runnerscore : Option Int
  start_date : Nat
  end_date : Nat
  location : String
  winner : Option String
  runnerup : Option String
  ongoing : Bool
deriving Repr, DecidableEq

/-- The persistent store: one list per table. -/
structure Store where
  endorsements : List endorsements
  athletes : List athlete
  tournaments : List tournament
deriving Repr, DecidableEq

def emptyStore : Store := { endorsements := [], athletes := [], tournaments := [] }

/-- Request model `AthleteEndorsementRequest` (src/app/core/models.py lines 18-21). -/
structure AthleteEndorsementRequest where
  athlete_id : Nat
  institute_id : Nat
  tournament_id : Nat
deriving Repr, DecidableEq

/-- Request model `EndorsementReviewRequest` (src/app/core/models.py lines 53-55). -/
structure EndorsementReviewRequest where
  endorsement_id : Nat
  approve : Bool
deriving Repr, DecidableEq

/-- Request model `TournamentResultsRequest` (src/app/core/models.py lines 94-99). -/
structure TournamentResultsRequest where
  tournament_id : Nat
  winner : String
  runnerup : String
  winnerscore : Int
  runnerscore : Int
deriving Repr, DecidableEq

/-- Response model `AthleteResponse` (src/app/core/models.py lines 23-30). -/
structure AthleteResponse where
  athlete_id : Nat
  name : String
  age : Nat
  gender : String
  division : String
  contact : String
  matches_played : Nat
deriving Repr, DecidableEq

/-- Response model `TournamentDetails` (src/app/core/models.py lines 40-46). -/
structure TournamentDetails where
  division : String
  stage : Nat
  name : String
  start_date : Nat
  end_date : Nat
  location : String
deriving Repr, DecidableEq

/-- Response model `GetEndorsementResponse` (src/app/core/models.py lines 48-51). -/
structure GetEndorsementResponse where
  endorsements_id : Nat
  athleteView : AthleteResponse
  tournamentView : TournamentDetails
deriving Repr, DecidableEq

/-- Response row of `/tournament/getOngoingTournaments`
(`GetOngoingTournamentDetailsResponse`, src/app/core/models.py lines 70-78). -/
structure GetOngoingTournamentDetailsResponse where
  tournament_id : Nat
  name : String
  division : String
  stage : Nat
  start_date : Nat
  end_date : Nat
  location : String
  status : Bool
deriving Repr, DecidableEq

/-- A FastAPI `HTTPException(status_code, detail)`. -/
inductive HTTPError where
  | httpException (status_code : Nat) (detail : String)
deriving Repr, DecidableEq

/-- Python `str(HTTPException)` renders as `"<code>: <detail>"`. -/
def HTTPError.str : HTTPError → String
  | .httpException code detail => toString code ++ ": " ++ detail

/-! ## Route `/tournament/getOngoingTournaments`
(src/app/routers/tournament.py lines 127-165) -/

/-- Per-tournament status computation, lines 138-147: the first endorsement
matching the (tournament, athlete) pair is fetched; then
`if not endorsement or (endorsement.review and not endorsement.approve): status = False
else: status = True`. -/
def tournamentStatus (session : Store) (athlete_id : Nat)
    (existing_tournament : tournament) : Bool :=
  let endorsement := session.endorsements.find? fun e =>
    e.tournament_id == existing_tournament.tournament_id && e.athlete_id == athlete_id
  match endorsement with
  | none => false
  | some e => if e.review && !e.approve then false else true

/-- The response row appended for one ongoing tournament, lines 149-160. -/
def ongoingRow (session : Store) (athlete_id : Nat)
    (t : tournament) : GetOngoingTournamentDetailsResponse :=
  { tournament_id := t.tournament_id
    name := t.name
    division := t.division
    stage := t.stage
    start_date := t.start_date
    end_date := t.end_date
    location := t.location
    status := tournamentStatus session athlete_id t }

/-- `get_ongoing_tournaments`, lines 127-162: select tournaments with
`ongoing == True` and build one status row per tournament (an empty
selection returns `[]`, which the early-return also yields). -/
def get_ongoing_tournaments (session : Store) (athlete_id : Nat) :
    List GetOngoingTournamentDetailsResponse :=
  (session.tournaments.filter fun t => t.ongoing).map (ongoingRow session athlete_id)

/-! ## Route `/athlete/requestEndorsement`
(src/app/routers/athlete.py lines 295-315) -/

/-- `create_endorsement_request`, lines 295-311: inserts a new `endorsements`
row with `review=False, approve=False` and the ids from the request; the
fresh `uuid4()` is passed in as `fresh_uuid`. -/
def create_endorsement_request (session : Store) (fresh_uuid : Nat)
    (request : AthleteEndorsementRequest) : Store :=
  let new_endorse_request : endorsements :=
    { endorsement_id := fresh_uuid
      tournament_id := request.tournament_id
      endorser_id := request.institute_id
      athlete_id := request.athlete_id
      review := false
      approve := false }
  { session with endorsements := session.endorsements ++ [new_endorse_request] }

/-! ## Route `/institute/reviewEndorsement`
(src/app/routers/institute.py lines 258-282) -/

/-- The in-place mutation of the row returned by `.first()`: the first row
whose `endorsement_id` matches gets `review = True` and `approve` set from
the request; all other rows are untouched. -/
def reviewFirst (endorsement_id : Nat) (approve : Bool) :
    List endorsements → List endorsements
  | [] => []
  | e :: rest =>
    if e.endorsement_id == endorsement_id then
      { e with review := true, approve := approve } :: rest
    else
      e :: reviewFirst endorsement_id approve rest

/-- The `try` body of `review_endorsement`, lines 263-278: 404 if the id
does not resolve, otherwise set `review = True`, `approve = request.approve`
and commit. -/
def review_endorsement_body (session : Store) (request : EndorsementReviewRequest) :
    Except HTTPError (Store × Nat) :=
  match session.endorsements.find? (fun e => e.endorsement_id == request.endorsement_id) with
  | none => .error (.httpException 404 "Endorsement not found")
  | some endorsement =>
    .ok ({ session with
            endorsements :=
              reviewFirst request.endorsement_id request.approve session.endorsements },
         endorsement.endorsement_id)

/-- `review_endorsement`, lines 258-282: the `except Exception` clause catches
the body's own `HTTPException(404)` too, rolls back, and re-raises it as a
500 with the stringified exception appended. -/
def review_endorsement (session : Store) (request : EndorsementReviewRequest) :
    Except HTTPError (Store × Nat) :=
  match review_endorsement_body session request with
  | .ok v => .ok v
  | .error e => .error (.httpException 500 ("Error updating endorsement: " ++ e.str))

/-! ## Route `/tournament/updateTournamentResults`
(src/app/routers/tournament.py lines 209-234) -/

/-- In-place mutation of the tournament row returned by `.first()`:
winner, runnerup, both scores and `ongoing = False` are assigned
unconditionally — there is no check that the tournament is still ongoing. -/
def finalizeFirst (request : TournamentResultsRequest) :
    List tournament → List tournament
  | [] => []
  | t :: rest =>
    if t.tournament_id == request.tournament_id then
      { t with winner := some request.winner
               runnerup := some request.runnerup
               winnerscore := some request.winnerscore
               runnerscore := some request.runnerscore
               ongoing := false } :: rest
    else
      t :: finalizeFirst request rest

/-- The `try` body of `update_tournament_results`, lines 212-230. -/
def update_tournament_results_body (session : Store) (request : TournamentResultsRequest) :
    Except HTTPError Store :=
  match session.tournaments.find? (fun t => t.tournament_id == request.tournament_id) with
  | none => .error (.httpException 404 "Tournament not found")
  | some _ => .ok { session with tournaments := finalizeFirst request session.tournaments }

/-- `update_tournament_results`, lines 209-234, with the same catch-all
wrapping of the body's 404 into a 500. -/
def update_tournament_results (session : Store) (request : TournamentResultsRequest) :
    Except HTTPError Store :=
  match update_tournament_results_body session request with
  | .ok v => .ok v
  | .error e => .error (.httpException 500 ("Error updating tournament: " ++ e.str))

/-! ## Route `/athlete/getDetails`
(src/app/routers/athlete.py lines 171-200) -/

/-- The `endorsement_count` subexpression, lines 180-187:
`select(func.count()).where(endorsements.athlete_id == athlete_id, endorsements.approve == True)`. -/
def endorsement_count (session : Store) (athlete_id : Nat) : Nat :=
  (session.endorsements.filter fun e =>
    e.athlete_id == athlete_id && e.approve == true).length

/-- The `try` body of `get_athlete_details`, lines 172-197. -/
def get_athlete_details_body (session : Store) (athlete_id : Nat) :
    Except HTTPError AthleteResponse :=
  match session.athletes.find? (fun a => a.athlete_id == athlete_id) with
  | none => .error (.httpException 404 "Athlete not found")
  | some existing_athlete =>
    .ok { athlete_id := existing_athlete.athlete_id
          name := existing_athlete.name
          age := existing_athlete.age
          gender := existing_athlete.gender
          division := existing_athlete.division
          contact := existing_athlete.contact
          matches_played := endorsement_count session athlete_id }

/-- `get_athlete_details`, lines 171-200, with the catch-all wrapper. -/
def get_athlete_details (session : Store) (athlete_id : Nat) :
    Except HTTPError AthleteResponse :=
  match get_athlete_details_body session athlete_id with
  | .ok v => .ok v
  | .error e => .error (.httpException 500 ("Error fetching athlete: " ++ e.str))

/-! ## Class-attribute resolution for the broken queries

The SQLModel table classes only expose the columns declared on them;
accessing any other attribute on the class raises `AttributeError` while
the select statement is being *constructed*, before anything runs against
the store.  The attribute lists below are transcribed from
`src/app/core/models.py`. -/

/-- Columns of the `endorsements` table class (there is no `endorsements_id`
and no `institute_id`; the institution column is `endorser_id`). -/
def endorsements_table_attrs : List String :=
  ["endorsement_id", "tournament_id", "endorser_id", "athlete_id", "review", "approve"]

/-- Columns of the `athlete` table class (there is no `matches_played`). -/
def athlete_table_attrs : List String :=
  ["athlete_id", "name", "age", "gender", "division", "contact", "password"]

/-- Columns of the `tournament` table class. -/
def tournament_table_attrs : List String :=
  ["tournament_id", "division", "stage", "name", "winnerscore", "runnerscore",
   "start_date", "end_date", "location", "winner", "runnerup", "ongoing"]

def table_attrs : String → List String
  | "endorsements" => endorsements_table_attrs
  | "athlete" => athlete_table_attrs
  | "tournament" => tournament_table_attrs
  | _ => []

/-- Resolving the class-attribute references of a select statement, in
source order: the first reference to a missing column raises
`AttributeError` (its Python message is returned). -/
def resolve_columns (cols : List (String × String)) : Except String Unit :=
  match cols.find? (fun c => !(table_attrs c.fst).contains c.snd) with
  | some c => .error ("type object " ++ c.fst ++ " has no attribute " ++ c.snd)
  | none => .ok ()

/-! ## Route `/institute/getEndorsements`
(src/app/routers/institute.py lines 187-234) -/

/-- The class-attribute references made while constructing the select
statement of `get_pending_endorsements`, in source order (lines 190-200):
the select list, then the two joins, then the where clause. -/
def get_pending_endorsements_columns : List (String × String) :=
  [("endorsements", "endorsements_id"), ("endorsements", "tournament_id"),
   ("athlete", "name"), ("athlete", "age"), ("athlete", "gender"),
   ("athlete", "division"), ("athlete", "contact"), ("athlete", "matches_played"),
   ("tournament", "name"), ("tournament", "division"), ("tournament", "stage"),
   ("tournament", "start_date"), ("tournament", "end_date"), ("tournament", "location"),
   ("endorsements", "athlete_id"), ("athlete", "athlete_id"),
   ("endorsements", "tournament_id"), ("tournament", "tournament_id"),
   ("endorsements", "endorser_id"), ("endorsements", "review")]

/-- `get_pending_endorsements`, lines 187-234: building the statement
resolves the column references above; the raised `AttributeError` is caught
by the route's catch-all and re-raised as a 500.  (The success branch is
unreachable — `endorsements_id` never resolves — so the rest of the body,
which would dereference further missing attributes such as `row.match_id`,
is not modelled.) -/
def get_pending_endorsements (session : Store) (endorser_id : Nat) :
    Except HTTPError (List GetEndorsementResponse) :=
  match resolve_columns get_pending_endorsements_columns with
  | .error msg => .error (.httpException 500 ("Error fetching endorsements: " ++ msg))
  | .ok _ => .ok []

/-! ## Route `/institute/getApprovedAthletes`
(src/app/routers/institute.py lines 295-325) -/

/-- The class-attribute references made while constructing the subquery and
outer query of `get_approved_athletes`, in source order (lines 301-315).
The where clause writes `endorsements.institute_id`, but the table's
institution column is named `endorser_id`. -/
def get_approved_athletes_columns : List (String × String) :=
  [("endorsements", "athlete_id"), ("endorsements", "tournament_id"),
   ("tournament", "tournament_id"), ("endorsements", "institute_id"),
   ("endorsements", "approve"), ("tournament", "ongoing"),
   ("athlete", "athlete_id")]

/-- `get_approved_athletes`, lines 295-325: constructing the query resolves
the column references above; the `AttributeError` on
`endorsements.institute_id` is caught by the catch-all and re-raised as a
500.  (The success branch is unreachable.) -/
def get_approved_athletes (session : Store) (institute_id : Nat) :
    Except HTTPError (List athlete) :=
  match resolve_columns get_approved_athletes_columns with
  | .error msg => .error (.httpException 500 ("Error fetching records: " ++ msg))
  | .ok _ => .ok []

/-! ## Operation sequences over the store -/

/-- The store-mutating operations of the endorsement/tournament workflow. -/
inductive Op where
  | createRequest (fresh_uuid : Nat) (request : AthleteEndorsementRequest)
  | review (request : EndorsementReviewRequest)
  | finalize (request : TournamentResultsRequest)
deriving Repr, DecidableEq

/-- One operation against the store; a failed operation rolls back and
leaves the store unchanged. -/
def applyOp (session : Store) : Op → Store
  | .createRequest uid req => create_endorsement_request session uid req
  | .review req =>
    match review_endorsement session req with
    | .ok (s, _) => s
    | .error _ => session
  | .finalize req =>
    match update_tournament_results session req with
    | .ok s => s
    | .error _ => session

/-- A sequence of operations, applied left to right. -/
def applyOps (session : Store) (ops : List Op) : Store := ops.foldl applyOp session

/-! ## Concrete fixtures -/

/-- An ongoing tournament used in concrete instances. -/
def t1 : tournament :=
  { tournament_id := 1, division := "Senior", stage := 1, name := "Nationals",
    winnerscore := some 0, runnerscore := some 0, start_date := 0, end_date := 1,
    location := "Delhi", winner := none, runnerup := none, ongoing := true }

/-- A reviewed-and-rejected endorsement of athlete 3 for tournament 1. -/
def rejectedEndorsement : endorsements :=
  { endorsement_id := 10, tournament_id := 1, endorser_id := 2, athlete_id := 3,
    review := true, approve := false }

/-- Store holding tournament `t1` and `rejectedEndorsement`. -/
def store1 : Store :=
  { endorsements := [rejectedEndorsement], athletes := [], tournaments := [t1] }

/-- Store holding only the ongoing tournament `t1` and no endorsements. -/
def store2 : Store :=
  { endorsements := [], athletes := [], tournaments := [t1] }

/-! ## C1: eligibility status when an endorsement exists -/

/-- C1: for every ongoing tournament in the store, when an endorsement for
the (athlete, tournament) pair exists, the status row reported by
`get_ongoing_tournaments` carries `status = false` exactly when the
endorsement is reviewed and not approved, and `status = true` when it is
approved or still pending. -/
theorem ongoing_status_with_endorsement
    (session : Store) (athlete_id : Nat) (t : tournament) (e : endorsements)
    (ht : t ∈ session.tournaments) (hongoing : t.ongoing = true)
    (hfind : session.endorsements.find?
      (fun x => x.tournament_id == t.tournament_id && x.athlete_id == athlete_id) = some e) :
    ongoingRow session athlete_id t ∈ get_ongoing_tournaments session athlete_id ∧
    (e.review = true ∧ e.approve = false → (ongoingRow session athlete_id t).status = false) ∧
    ((e.approve = true ∨ e.review = false) → (ongoingRow session athlete_id t).status = true) := by
  refine ⟨?_, ?_, ?_⟩
  · exact List.mem_map_of_mem _ (List.mem_filter.mpr ⟨ht, hongoing⟩)
  · rintro ⟨hr, ha⟩
    simp [ongoingRow, tournamentStatus, hfind, hr, ha]
  · rintro (ha | hr)
    · simp [ongoingRow, tournamentStatus, hfind, ha]
    · simp [ongoingRow, tournamentStatus, hfind, hr]

/-- Witness for C1 at a concrete store with a rejected endorsement. -/
theorem ongoing_status_with_endorsement_witness :
    ongoingRow store1 3 t1 ∈ get_ongoing_tournaments store1 3 ∧
    (rejectedEndorsement.review = true ∧ rejectedEndorsement.approve = false →
      (ongoingRow store1 3 t1).status = false) ∧
    ((rejectedEndorsement.approve = true ∨ rejectedEndorsement.review = false) →
      (ongoingRow store1 3 t1).status = true) :=
  ongoing_status_with_endorsement store1 3 t1 rejectedEndorsement
    (by decide) (by decide) (by decide)

/-! ## C3: eligibility status when no endorsement exists -/

/-- C3 counterexample: in a store with an ongoing tournament and no
endorsement at all for the (athlete, tournament) pair, the status reported
for the pair is `false`, not `true` as the claim states. -/
theorem no_endorsement_status_counterexample :
    t1.ongoing = true ∧
    store2.endorsements.find?
      (fun x => x.tournament_id == t1.tournament_id && x.athlete_id == 7) = none ∧
    get_ongoing_tournaments store2 7 = [ongoingRow store2 7 t1] ∧
    (ongoingRow store2 7 t1).status = false :=
  ⟨rfl, rfl, rfl, rfl⟩

/-- C3 amended: when no endorsement exists for the (athlete, tournament)
pair, the status row reported for an ongoing tournament carries
`status = false`. -/
theorem ongoing_status_without_endorsement
    (session : Store) (athlete_id : Nat) (t : tournament)
    (ht : t ∈ session.tournaments) (hongoing : t.ongoing = true)
    (hfind : session.endorsements.find?
      (fun x => x.tournament_id == t.tournament_id && x.athlete_id == athlete_id) = none) :
    ongoingRow session athlete_id t ∈ get_ongoing_tournaments session athlete_id ∧
    (ongoingRow session athlete_id t).status = false := by
  refine ⟨List.mem_map_of_mem _ (List.mem_filter.mpr ⟨ht, hongoing⟩), ?_⟩
  simp [ongoingRow, tournamentStatus, hfind]

/-- Witness for the amended C3 at a concrete store with no endorsements. -/
theorem ongoing_status_without_endorsement_witness :
    ongoingRow store2 7 t1 ∈ get_ongoing_tournaments store2 7 ∧
    (ongoingRow store2 7 t1).status = false :=
  ongoing_status_without_endorsement store2 7 t1 (by decide) (by decide) (by decide)

/-! ## C7: review of a missing endorsement id -/

/-- C7: reviewing an endorsement id that resolves to no record yields a 500
Internal error wrapping the 404 (the route's catch-all swallows its own
`HTTPException(404)`), and the store is unchanged. -/
theorem review_missing_id_wrapped_as_internal :
    review_endorsement emptyStore { endorsement_id := 1, approve := true } =
      .error (.httpException 500 "Error updating endorsement: 404: Endorsement not found") ∧
    applyOp emptyStore (.review { endorsement_id := 1, approve := true }) = emptyStore :=
  ⟨rfl, rfl⟩

/-! ## C8: createRequest inserts a Pending record -/

/-- C8: every record added to the store by `create_endorsement_request`
(i.e. present afterwards but not before) is Pending (`review = false`,
`approve = false`) and references exactly the athlete, institution and
tournament ids of the request, and the new record is indeed inserted. -/
theorem create_request_inserts_pending
    (session : Store) (fresh_uuid : Nat) (request : AthleteEndorsementRequest)
    (e : endorsements)
    (hmem : e ∈ (create_endorsement_request session fresh_uuid request).endorsements)
    (hnew : e ∉ session.endorsements) :
    e.review = false ∧ e.approve = false ∧
    e.athlete_id = request.athlete_id ∧
    e.endorser_id = request.institute_id ∧
    e.tournament_id = request.tournament_id ∧
    e.endorsement_id = fresh_uuid ∧
    ({ endorsement_id := fresh_uuid, tournament_id := request.tournament_id,
       endorser_id := request.institute_id, athlete_id := request.athlete_id,
       review := false, approve := false } : endorsements) ∈
      (create_endorsement_request session fresh_uuid request).endorsements := by
  rcases List.mem_append.mp hmem with h | h
  · exact absurd h hnew
  · have he := List.mem_singleton.mp h
    subst he
    exact ⟨rfl, rfl, rfl, rfl, rfl, rfl,
      List.mem_append_right _ (List.mem_singleton.mpr rfl)⟩

/-- Witness for C8: the record created in the empty store. -/
theorem create_request_inserts_pending_witness :
    ({ endorsement_id := 5, tournament_id := 1, endorser_id := 2, athlete_id := 3,
       review := false, approve := false } : endorsements).review = false ∧
    ({ endorsement_id := 5, tournament_id := 1, endorser_id := 2, athlete_id := 3,
       review := false, approve := false } : endorsements).approve = false ∧
    ({ endorsement_id := 5, tournament_id := 1, endorser_id := 2, athlete_id := 3,
       review := false, approve := false } : endorsements).athlete_id =
      ({ athlete_id := 3, institute_id := 2, tournament_id := 1 } :
        AthleteEndorsementRequest).athlete_id ∧
    ({ endorsement_id := 5, tournament_id := 1, endorser_id := 2, athlete_id := 3,
       review := false, approve := false } : endorsements).endorser_id =
      ({ athlete_id := 3, institute_id := 2, tournament_id := 1 } :
        AthleteEndorsementRequest).institute_id ∧
    ({ endorsement_id := 5, tournament_id := 1, endorser_id := 2, athlete_id := 3,
       review := false, approve := false } : endorsements).tournament_id =
      ({ athlete_id := 3, institute_id := 2, tournament_id := 1 } :
        AthleteEndorsementRequest).tournament_id ∧
    ({ endorsement_id := 5, tournament_id := 1, endorser_id := 2, athlete_id := 3,
       review := false, approve := false } : endorsements).endorsement_id = 5 ∧
    ({ endorsement_id := 5, tournament_id := 1, endorser_id := 2, athlete_id := 3,
       review := false, approve := false } : endorsements) ∈
      (create_endorsement_request emptyStore 5
        { athlete_id := 3, institute_id := 2, tournament_id := 1 }).endorsements :=
  create_request_inserts_pending emptyStore 5
    { athlete_id := 3, institute_id := 2, tournament_id := 1 }
    { endorsement_id := 5, tournament_id := 1, endorser_id := 2, athlete_id := 3,
      review := false, approve := false }
    (by decide) (by decide)

/-! ## C9: getApprovedAthletes always fails -/

/-- C9: the `endorsements` table has no `institute_id` column, so
`get_approved_athletes` raises on query construction for every store and
every institution id, returning a wrapped 500 and never a roster. -/
theorem approved_athletes_always_internal_error :
    endorsements_table_attrs.contains "institute_id" = false ∧
    ∀ (session : Store) (institute_id : Nat),
      get_approved_athletes session institute_id =
        .error (.httpException 500
          "Error fetching records: type object endorsements has no attribute institute_id") :=
  ⟨by decide, fun _ _ => rfl⟩

/-! ## C10: getEndorsements always fails -/

/-- C10: the `endorsements` table has no `endorsements_id` column and the
`athlete` table has no `matches_played` column, so `get_pending_endorsements`
raises on query construction for every store and every institution id,
returning a wrapped 500 and never the composite views. -/
theorem pending_endorsements_always_internal_error :
    endorsements_table_attrs.contains "endorsements_id" = false ∧
    athlete_table_attrs.contains "matches_played" = false ∧
    ∀ (session : Store) (endorser_id : Nat),
      get_pending_endorsements session endorser_id =
        .error (.httpException 500
          "Error fetching endorsements: type object endorsements has no attribute endorsements_id") :=
  ⟨by decide, by decide, fun _ _ => rfl⟩

/-! ## C2: the approve-implies-review invariant is preserved -/

/-- The three-state lifecycle invariant on a single endorsement row. -/
def EndorsementInv (e : endorsements) : Prop := e.approve = true → e.review = true

/-- The invariant on the whole store. -/
def StoreInv (s : Store) : Prop := ∀ e ∈ s.endorsements, EndorsementInv e

/-- Every row of `reviewFirst id b l` is a row of `l` or a reviewed copy of
a row of `l`. -/
theorem mem_reviewFirst {id : Nat} {b : Bool} {l : List endorsements} {x : endorsements}
    (hx : x ∈ reviewFirst id b l) :
    x ∈ l ∨ ∃ e ∈ l, x = { e with review := true, approve := b } := by
  induction l with
  | nil => simp [reviewFirst] at hx
  | cons e rest ih =>
    simp only [reviewFirst] at hx
    split at hx
    · rcases List.mem_cons.mp hx with h1 | h1
      · exact Or.inr ⟨e, List.mem_cons_self e rest, h1⟩
      · exact Or.inl (List.mem_cons_of_mem _ h1)
    · rcases List.mem_cons.mp hx with h1 | h1
      · exact Or.inl (h1 ▸ List.mem_cons_self e rest)
      · rcases ih h1 with h2 | ⟨e', he', hx'⟩
        · exact Or.inl (List.mem_cons_of_mem _ h2)
        · exact Or.inr ⟨e', List.mem_cons_of_mem _ he', hx'⟩

/-- The endorsements table is untouched by a finalize operation. -/
theorem endorsements_applyOp_finalize (s : Store) (req : TournamentResultsRequest) :
    (applyOp s (.finalize req)).endorsements = s.endorsements := by
  cases hfind : s.tournaments.find? (fun t => t.tournament_id == req.tournament_id) with
  | none =>
    simp [applyOp, update_tournament_results, update_tournament_results_body, hfind]
  | some t =>
    simp [applyOp, update_tournament_results, update_tournament_results_body, hfind]

/-- Each single operation preserves the store invariant. -/
theorem storeInv_applyOp (s : Store) (op : Op) (h : StoreInv s) :
    StoreInv (applyOp s op) := by
  cases op with
  | createRequest uid req =>
    intro e he
    rcases List.mem_append.mp he with h1 | h1
    · exact h e h1
    · have he2 := List.mem_singleton.mp h1
      subst he2
      intro ha
      exact absurd ha Bool.false_ne_true
  | review req =>
    cases hfind : s.endorsements.find? (fun x => x.endorsement_id == req.endorsement_id) with
    | none =>
      intro e he
      simp [applyOp, review_endorsement, review_endorsement_body, hfind] at he
      exact h e he
    | some e0 =>
      intro e he
      simp [applyOp, review_endorsement, review_endorsement_body, hfind] at he
      rcases mem_reviewFirst he with h1 | ⟨e', _, hx⟩
      · exact h e h1
      · subst hx
        intro _
        rfl
  | finalize req =>
    intro e he
    rw [endorsements_applyOp_finalize] at he
    exact h e he

/-- Every operation sequence preserves the store invariant. -/
theorem storeInv_applyOps (ops : List Op) (s : Store) (h : StoreInv s) :
    StoreInv (applyOps s ops) := by
  induction ops generalizing s with
  | nil => exact h
  | cons op rest ih => exact ih (applyOp s op) (storeInv_applyOp s op h)

/-- C2: every endorsement reachable from the empty store by createRequest /
review / finalize operations satisfies the three-state invariant:
`approve = true` implies `review = true`, and `review = false` implies
`approve = false`. -/
theorem endorsement_invariant_reachable
    (ops : List Op) (e : endorsements)
    (he : e ∈ (applyOps emptyStore ops).endorsements) :
    (e.approve = true → e.review = true) ∧ (e.review = false → e.approve = false) := by
  have hinv : StoreInv (applyOps emptyStore ops) :=
    storeInv_applyOps ops emptyStore (fun x hx => by simp [emptyStore] at hx)
  have h1 := hinv e he
  refine ⟨h1, fun hr => ?_⟩
  cases ha : e.approve with
  | false => rfl
  | true =>
    have := h1 ha
    rw [hr] at this
    exact absurd this (by decide)

/-- Witness for C2: the record created then approved in a two-step run. -/
theorem endorsement_invariant_reachable_witness :
    ({ endorsement_id := 5, tournament_id := 1, endorser_id := 2, athlete_id := 3,
       review := true, approve := true } : endorsements) ∈
      (applyOps emptyStore
        [.createRequest 5 { athlete_id := 3, institute_id := 2, tournament_id := 1 },
         .review { endorsement_id := 5, approve := true }]).endorsements ∧
    (({ endorsement_id := 5, tournament_id := 1, endorser_id := 2, athlete_id := 3,
        review := true, approve := true } : endorsements).approve = true →
      ({ endorsement_id := 5, tournament_id := 1, endorser_id := 2, athlete_id := 3,
         review := true, approve := true } : endorsements).review = true) ∧
    (({ endorsement_id := 5, tournament_id := 1, endorser_id := 2, athlete_id := 3,
        review := true, approve := true } : endorsements).review = false →
      ({ endorsement_id := 5, tournament_id := 1, endorser_id := 2, athlete_id := 3,
         review := true, approve := true } : endorsements).approve = false) :=
  ⟨by decide,
   endorsement_invariant_reachable
     [.createRequest 5 { athlete_id := 3, institute_id := 2, tournament_id := 1 },
      .review { endorsement_id := 5, approve := true }]
     { endorsement_id := 5, tournament_id := 1, endorser_id := 2, athlete_id := 3,
       review := true, approve := true }
     (by decide)⟩

/-! ## C4: approving a review increments matches played -/

/-- An already-approved endorsement of athlete 3. -/
def approvedEndorsement : endorsements :=
  { endorsement_id := 20, tournament_id := 1, endorser_id := 2, athlete_id := 3,
    review := true, approve := true }

/-- The athlete referenced by `approvedEndorsement`. -/
def athlete3 : athlete :=
  { athlete_id := 3, name := "Asha", age := 20, gender := "F", division := "Senior",
    contact := "asha", password := "digest" }

/-- Store holding athlete 3 and the already-approved endorsement. -/
def store4 : Store :=
  { endorsements := [approvedEndorsement], athletes := [athlete3], tournaments := [] }

/-- C4 counterexample: endorsement 20 resolves and is re-reviewed with
`approve = true`; the store is unchanged (the row was already approved),
so the matches-played count stays at 1 instead of increasing by 1. -/
theorem review_approve_no_increment_counterexample :
    store4.endorsements.find? (fun x => x.endorsement_id == 20) = some approvedEndorsement ∧
    review_endorsement store4 { endorsement_id := 20, approve := true } = .ok (store4, 20) ∧
    endorsement_count store4 3 = 1 ∧
    get_athlete_details store4 3 =
      .ok { athlete_id := 3, name := "Asha", age := 20, gender := "F", division := "Senior",
            contact := "asha", matches_played := 1 } ∧
    endorsement_count store4 3 ≠ endorsement_count store4 3 + 1 :=
  ⟨rfl, rfl, rfl, rfl, by decide⟩

/-- Reviewing the first row matching `id` with `approve = true`, when that
row was not approved before, adds exactly one row to the approved-rows
filter for that row's athlete. -/
theorem reviewFirst_filter_length
    (id : Nat) (e : endorsements) :
    ∀ l : List endorsements,
      l.find? (fun x => x.endorsement_id == id) = some e →
      e.approve = false →
      ((reviewFirst id true l).filter fun x =>
          x.athlete_id == e.athlete_id && x.approve == true).length
        = ((l.filter fun x =>
            x.athlete_id == e.athlete_id && x.approve == true).length) + 1 := by
  intro l
  induction l with
  | nil => intro hfind; simp [List.find?] at hfind
  | cons y rest ih =>
    intro hfind hpend
    by_cases hy : (y.endorsement_id == id) = true
    · have h0 : (y :: rest).find? (fun x => x.endorsement_id == id) = some y :=
        List.find?_cons_of_pos rest hy
      have hye : y = e := Option.some.inj (h0.symm.trans hfind)
      subst hye
      rw [show reviewFirst id true (y :: rest)
            = { y with review := true, approve := true } :: rest from by
          simp [reviewFirst, hy]]
      rw [List.filter_cons, List.filter_cons]
      rw [if_pos (by simp), if_neg (by simp [hpend])]
      simp
    · have h0 : (y :: rest).find? (fun x => x.endorsement_id == id)
          = rest.find? (fun x => x.endorsement_id == id) :=
        List.find?_cons_of_neg rest hy
      rw [h0] at hfind
      have ihr := ih hfind hpend
      rw [show reviewFirst id true (y :: rest) = y :: reviewFirst id true rest from by
          simp [reviewFirst, hy]]
      rw [List.filter_cons, List.filter_cons]
      cases hya : (y.athlete_id == e.athlete_id && y.approve == true)
      · simpa using ihr
      · simpa using ihr

/-- C4 amended: when the endorsement id resolves to a record that is not
already approved, reviewing it with `approve = true` succeeds and the
matches-played count of the referenced athlete afterwards is exactly one
greater than before. -/
theorem review_approve_increments_matches_played
    (session : Store) (request : EndorsementReviewRequest) (e : endorsements)
    (happrove : request.approve = true)
    (hfind : session.endorsements.find?
      (fun x => x.endorsement_id == request.endorsement_id) = some e)
    (hpending : e.approve = false) :
    review_endorsement session request =
      .ok ({ session with
              endorsements :=
                reviewFirst request.endorsement_id request.approve session.endorsements },
           e.endorsement_id) ∧
    endorsement_count
      { session with
          endorsements :=
            reviewFirst request.endorsement_id request.approve session.endorsements }
      e.athlete_id
      = endorsement_count session e.athlete_id + 1 := by
  constructor
  · simp [review_endorsement, review_endorsement_body, hfind]
  · have h := reviewFirst_filter_length request.endorsement_id e
      session.endorsements hfind hpending
    simpa [endorsement_count, happrove] using h

/-- A pending endorsement of athlete 3 used in the C4 witness. -/
def pendingEndorsement : endorsements :=
  { endorsement_id := 30, tournament_id := 1, endorser_id := 2, athlete_id := 3,
    review := false, approve := false }

/-- Store holding only `pendingEndorsement`. -/
def store5 : Store :=
  { endorsements := [pendingEndorsement], athletes := [], tournaments := [] }

/-- Witness for the amended C4: approving the pending endorsement 30 moves
athlete 3's count from 0 to 1. -/
theorem review_approve_increments_matches_played_witness :
    review_endorsement store5 { endorsement_id := 30, approve := true } =
      .ok ({ store5 with endorsements := reviewFirst 30 true store5.endorsements }, 30) ∧
    endorsement_count
      { store5 with endorsements := reviewFirst 30 true store5.endorsements } 3
      = endorsement_count store5 3 + 1 :=
  review_approve_increments_matches_played store5 { endorsement_id := 30, approve := true }
    pendingEndorsement rfl (by decide) rfl

/-! ## C5: terminal states are not final, but review never unsets itself -/

/-- An approved endorsement used in the C5 instances. -/
def approvedEndorsement2 : endorsements :=
  { endorsement_id := 40, tournament_id := 1, endorser_id := 2, athlete_id := 3,
    review := true, approve := true }

/-- Store holding only `approvedEndorsement2`. -/
def store6 : Store :=
  { endorsements := [approvedEndorsement2], athletes := [], tournaments := [] }

/-- C5 counterexample: endorsement 40 is in the Approved terminal state, yet
a further `review_endorsement` call with `approve = false` succeeds and
moves it to Rejected. -/
theorem terminal_state_flips_counterexample :
    approvedEndorsement2.review = true ∧ approvedEndorsement2.approve = true ∧
    review_endorsement store6 { endorsement_id := 40, approve := false } =
      .ok ({ store6 with
              endorsements := [{ approvedEndorsement2 with approve := false }] }, 40) ∧
    ({ approvedEndorsement2 with approve := false }).review = true ∧
    ({ approvedEndorsement2 with approve := false }).approve = false :=
  ⟨rfl, rfl, rfl, rfl, rfl⟩

/-- `reviewFirst` keeps every position: the row at index `i` is either
untouched or replaced by a reviewed copy of itself. -/
theorem getElem?_reviewFirst (id : Nat) (b : Bool) (l : List endorsements) :
    ∀ (i : Nat) (e : endorsements), l[i]? = some e →
      ∃ e', (reviewFirst id b l)[i]? = some e' ∧
        e'.endorsement_id = e.endorsement_id ∧
        (e' = e ∨ (e'.review = true ∧ e'.approve = b)) := by
  induction l with
  | nil => intro i e h; simp at h
  | cons y rest ih =>
    intro i e h
    cases i with
    | zero =>
      simp only [List.getElem?_cons_zero, Option.some.injEq] at h
      subst h
      by_cases hy : (y.endorsement_id == id) = true
      · refine ⟨{ y with review := true, approve := b }, ?_, rfl, Or.inr ⟨rfl, rfl⟩⟩
        simp [reviewFirst, hy]
      · exact ⟨y, by simp [reviewFirst, hy], rfl, Or.inl rfl⟩
    | succ n =>
      simp only [List.getElem?_cons_succ] at h
      by_cases hy : (y.endorsement_id == id) = true
      · exact ⟨e, by simp [reviewFirst, hy, h], rfl, Or.inl rfl⟩
      · rcases ih n e h with ⟨e', h1, h2, h3⟩
        exact ⟨e', by simp [reviewFirst, hy, h1], h2, h3⟩

/-- One operation never clears the `review` flag of a row and never moves
rows between positions of the endorsements table. -/
theorem reviewed_stays_applyOp (s : Store) (op : Op) (i : Nat) (e : endorsements)
    (h : s.endorsements[i]? = some e) (hrev : e.review = true) :
    ∃ e', (applyOp s op).endorsements[i]? = some e' ∧
      e'.endorsement_id = e.endorsement_id ∧ e'.review = true := by
  cases op with
  | createRequest uid req =>
    refine ⟨e, ?_, rfl, hrev⟩
    have hi : i < s.endorsements.length := by
      by_contra hlt
      rw [List.getElem?_eq_none (Nat.le_of_not_lt hlt)] at h
      exact Option.noConfusion h
    simp only [applyOp, create_endorsement_request]
    rw [List.getElem?_append, if_pos hi]
    exact h
  | review req =>
    cases hfind : s.endorsements.find? (fun x => x.endorsement_id == req.endorsement_id) with
    | none =>
      refine ⟨e, ?_, rfl, hrev⟩
      simpa [applyOp, review_endorsement, review_endorsement_body, hfind] using h
    | some e0 =>
      rcases getElem?_reviewFirst req.endorsement_id req.approve s.endorsements i e h with
        ⟨e', h1, h2, h3⟩
      refine ⟨e', ?_, h2, ?_⟩
      · simpa [applyOp, review_endorsement, review_endorsement_body, hfind] using h1
      · rcases h3 with h3 | ⟨h3, _⟩
        · rw [h3]; exact hrev
        · exact h3
  | finalize req =>
    refine ⟨e, ?_, rfl, hrev⟩
    rw [endorsements_applyOp_finalize]
    exact h

/-- C5 amended: a reviewed endorsement never returns to Pending — after any
further sequence of operations the row at the same position still has the
same endorsement id and still has `review = true` (though, as the
counterexample shows, its `approve` flag can flip). -/
theorem reviewed_never_returns_to_pending
    (ops : List Op) (session : Store) (i : Nat) (e : endorsements)
    (h : session.endorsements[i]? = some e) (hrev : e.review = true) :
    ∃ e', (applyOps session ops).endorsements[i]? = some e' ∧
      e'.endorsement_id = e.endorsement_id ∧ e'.review = true := by
  induction ops generalizing session e with
  | nil => exact ⟨e, h, rfl, hrev⟩
  | cons op rest ih =>
    rcases reviewed_stays_applyOp session op i e h hrev with ⟨e', h1, h2, h3⟩
    rcases ih (applyOp session op) e' h1 h3 with ⟨e'', g1, g2, g3⟩
    exact ⟨e'', by simpa [applyOps] using g1, g2.trans h2, g3⟩

/-- Witness for the amended C5: re-reviewing the approved endorsement 40
with `approve = false` leaves `review = true` at position 0. -/
theorem reviewed_never_returns_to_pending_witness :
    ∃ e', (applyOps store6
        [.review { endorsement_id := 40, approve := false }]).endorsements[0]? = some e' ∧
      e'.endorsement_id = approvedEndorsement2.endorsement_id ∧ e'.review = true :=
  reviewed_never_returns_to_pending
    [.review { endorsement_id := 40, approve := false }] store6 0 approvedEndorsement2
    (by decide) rfl

/-! ## C6: finalized tournament results are not immutable -/

/-- An already-finalized tournament. -/
def finalizedTournament : tournament :=
  { tournament_id := 9, division := "Senior", stage := 2, name := "Cup",
    winnerscore := some 10, runnerscore := some 5, start_date := 0, end_date := 1,
    location := "Pune", winner := some "Alice", runnerup := some "Carol", ongoing := false }

/-- Store holding only `finalizedTournament`. -/
def store7 : Store :=
  { endorsements := [], athletes := [], tournaments := [finalizedTournament] }

/-- A second results submission for the same tournament id. -/
def refinalizeRequest : TournamentResultsRequest :=
  { tournament_id := 9, winner := "Bob", runnerup := "Dave", winnerscore := 9, runnerscore := 7 }

/-- C6 counterexample: tournament 9 already has `ongoing = false` and winner
"Alice", yet a further `update_tournament_results` call succeeds and
overwrites the winner with "Bob" — the result fields are not immutable. -/
theorem finalized_results_overwritten_counterexample :
    finalizedTournament.ongoing = false ∧
    finalizedTournament.winner = some "Alice" ∧
    update_tournament_results store7 refinalizeRequest =
      .ok { store7 with
              tournaments := [{ finalizedTournament with
                winner := some "Bob", runnerup := some "Dave",
                winnerscore := some 9, runnerscore := some 7, ongoing := false }] } ∧
    some "Bob" ≠ finalizedTournament.winner :=
  ⟨rfl, rfl, rfl, by decide⟩

/-- `finalizeFirst` rewrites the first row matching the request id with the
request's result fields, as seen through `find?` for that id. -/
theorem find?_finalizeFirst (req : TournamentResultsRequest) :
    ∀ (l : List tournament) (t : tournament),
      l.find? (fun x => x.tournament_id == req.tournament_id) = some t →
      (finalizeFirst req l).find? (fun x => x.tournament_id == req.tournament_id) =
        some { t with winner := some req.winner, runnerup := some req.runnerup,
                      winnerscore := some req.winnerscore,
                      runnerscore := some req.runnerscore, ongoing := false } := by
  intro l
  induction l with
  | nil => intro t hfind; simp [List.find?] at hfind
  | cons y rest ih =>
    intro t hfind
    by_cases hy : (y.tournament_id == req.tournament_id) = true
    · have h0 : (y :: rest).find? (fun x => x.tournament_id == req.tournament_id) = some y :=
        List.find?_cons_of_pos rest hy
      have hyt : y = t := Option.some.inj (h0.symm.trans hfind)
      subst hyt
      rw [show finalizeFirst req (y :: rest)
            = { y with winner := some req.winner, runnerup := some req.runnerup,
                       winnerscore := some req.winnerscore,
                       runnerscore := some req.runnerscore, ongoing := false } :: rest from by
          simp [finalizeFirst, hy]]
      exact List.find?_cons_of_pos rest hy
    · have h0 : (y :: rest).find? (fun x => x.tournament_id == req.tournament_id)
          = rest.find? (fun x => x.tournament_id == req.tournament_id) :=
        List.find?_cons_of_neg rest hy
      rw [h0] at hfind
      rw [show finalizeFirst req (y :: rest) = y :: finalizeFirst req rest from by
          simp [finalizeFirst, hy]]
      have h2 : (y :: finalizeFirst req rest).find?
            (fun x => x.tournament_id == req.tournament_id)
          = (finalizeFirst req rest).find?
            (fun x => x.tournament_id == req.tournament_id) :=
        List.find?_cons_of_neg (finalizeFirst req rest) hy
      rw [h2]
      exact ih t hfind

/-- C6 amended: finalizing sets winner/runnerup/scores and `ongoing = false`,
but these fields are not immutable: a second `update_tournament_results`
call on the same tournament id also succeeds and overwrites them with its
own values (silently re-finalizing). -/
theorem finalize_then_refinalize_overwrites
    (session : Store) (r r2 : TournamentResultsRequest) (t : tournament)
    (hsame : r2.tournament_id = r.tournament_id)
    (hfind : session.tournaments.find?
      (fun x => x.tournament_id == r.tournament_id) = some t) :
    update_tournament_results session r =
      .ok { session with tournaments := finalizeFirst r session.tournaments } ∧
    ({ session with
        tournaments := finalizeFirst r session.tournaments } : Store).tournaments.find?
        (fun x => x.tournament_id == r.tournament_id) =
      some { t with winner := some r.winner, runnerup := some r.runnerup,
                    winnerscore := some r.winnerscore,
                    runnerscore := some r.runnerscore, ongoing := false } ∧
    update_tournament_results
        { session with tournaments := finalizeFirst r session.tournaments } r2 =
      .ok { session with
              tournaments :=
                finalizeFirst r2 (finalizeFirst r session.tournaments) } ∧
    (finalizeFirst r2 (finalizeFirst r session.tournaments)).find?
        (fun x => x.tournament_id == r.tournament_id) =
      some { t with winner := some r2.winner, runnerup := some r2.runnerup,
                    winnerscore := some r2.winnerscore,
                    runnerscore := some r2.runnerscore, ongoing := false } := by
  have h1 := find?_finalizeFirst r session.tournaments t hfind
  have h1' : (finalizeFirst r session.tournaments).find?
      (fun x => x.tournament_id == r2.tournament_id) =
      some { t with winner := some r.winner, runnerup := some r.runnerup,
                    winnerscore := some r.winnerscore,
                    runnerscore := some r.runnerscore, ongoing := false } := by
    rw [hsame]; exact h1
  have h2 := find?_finalizeFirst r2 (finalizeFirst r session.tournaments) _ h1'
  refine ⟨?_, h1, ?_, ?_⟩
  · simp [update_tournament_results, update_tournament_results_body, hfind]
  · simp only [update_tournament_results, update_tournament_results_body, h1']
  · rw [← hsame]
    exact h2

/-- Witness for the amended C6: finalizing tournament 9 twice, the second
submission's results replace the first's. -/
theorem finalize_then_refinalize_overwrites_witness :
    update_tournament_results store7 refinalizeRequest =
      .ok { store7 with tournaments := finalizeFirst refinalizeRequest store7.tournaments } ∧
    ({ store7 with
        tournaments := finalizeFirst refinalizeRequest store7.tournaments } : Store).tournaments.find?
        (fun x => x.tournament_id == refinalizeRequest.tournament_id) =
      some { finalizedTournament with
              winner := some refinalizeRequest.winner,
              runnerup := some refinalizeRequest.runnerup,
              winnerscore := some refinalizeRequest.winnerscore,
              runnerscore := some refinalizeRequest.runnerscore, ongoing := false } ∧
    update_tournament_results
        { store7 with tournaments := finalizeFirst refinalizeRequest store7.tournaments }
        { tournament_id := 9, winner := "Eve", runnerup := "Fay",
          winnerscore := 3, runnerscore := 2 } =
      .ok { store7 with
              tournaments :=
                finalizeFirst
                  { tournament_id := 9, winner := "Eve", runnerup := "Fay",
                    winnerscore := 3, runnerscore := 2 }
                  (finalizeFirst refinalizeRequest store7.tournaments) } ∧
    (finalizeFirst
        { tournament_id := 9, winner := "Eve", runnerup := "Fay",
          winnerscore := 3, runnerscore := 2 }
        (finalizeFirst refinalizeRequest store7.tournaments)).find?
        (fun x => x.tournament_id == refinalizeRequest.tournament_id) =
      some { finalizedTournament with
              winner := some "Eve", runnerup := some "Fay",
              winnerscore := some 3, runnerscore := some 2, ongoing := false } :=
  finalize_then_refinalize_overwrites store7 refinalizeRequest
    { tournament_id := 9, winner := "Eve", runnerup := "Fay",
      winnerscore := 3, runnerscore := 2 }
    finalizedTournament rfl (by decide)

end Wushu
